import Mathlib

/-!
Shallow embedding of the artwork-resolution core of the
`discord-pixiv-uploader` repository (`src/pixiv/artwork.py`), together with
models of the small value types it imports (`src/pixiv/tags.py` and
`src/pixiv/user.py`, which are not part of the provided sources and are
therefore modelled from the specification).

JSON documents are embedded as an inductive type; Python dictionary access,
`int()` conversion, truthiness, `str()` rendering and iteration are embedded
as explicit functions returning `Except PyError _` where the Python code can
raise.
-/

/-- A parsed JSON value, as produced by `response.json()`. -/
inductive JSON where
  | null : JSON
  | bool : Bool → JSON
  | num : Int → JSON
  | str : String → JSON
  | arr : List JSON → JSON
  | obj : List (String × JSON) → JSON
deriving Repr, BEq

/-- The Python exception classes that the embedded code can raise. -/
inductive PyError where
  | keyError : String → PyError
  | valueError : PyError
  | typeError : PyError
  | attributeError : PyError
deriving Repr, DecidableEq

/-- Assoc-list lookup on the fields of a JSON object (first match wins,
as in a Python `dict` whose keys are unique). -/
def JSON.lookup (fields : List (String × JSON)) (key : String) : Option JSON :=
  match fields with
  | [] => none
  | (k, v) :: rest => if k = key then some v else JSON.lookup rest key

/-- Python subscript access `data[key]`: a `KeyError` when the key is
missing from a dict, a `TypeError` when the value is not a dict at all. -/
def pyItem (data : JSON) (key : String) : Except PyError JSON :=
  match data with
  | .obj fields =>
    match JSON.lookup fields key with
    | some v => .ok v
    | none => .error (.keyError key)
  | _ => .error .typeError

/-- Python truthiness (`bool(x)`) of a JSON-decoded value: `None`, `False`,
`0`, `""`, `[]` and `{}` are falsy, everything else truthy. -/
def JSON.truthy : JSON → Bool
  | .null => false
  | .bool b => b
  | .num n => n != 0
  | .str s => s ≠ ""
  | .arr xs => !xs.isEmpty
  | .obj fields => !fields.isEmpty

/-- Interpret a character as a decimal digit. -/
def digitVal (c : Char) : Option Nat :=
  if c.isDigit then some (c.toNat - '0'.toNat) else none

/-- Parse a non-empty all-digit character list as a natural number. -/
def digitsToNat : List Char → Option Nat
  | [] => none
  | cs => cs.foldl (fun acc c => do
      let a ← acc
      let d ← digitVal c
      pure (a * 10 + d)) (some 0)

/-- Python `int(x)` on a JSON-decoded value: identity on integers,
decimal-string parsing (optional sign) on strings, 1/0 on booleans,
`TypeError` otherwise. A non-numeric string is a `ValueError`. -/
def pyInt (v : JSON) : Except PyError Int :=
  match v with
  | .num n => .ok n
  | .bool b => .ok (if b then 1 else 0)
  | .str s =>
    match s.toList with
    | '-' :: rest =>
      match digitsToNat rest with
      | some n => .ok (-(n : Int))
      | none => .error .valueError
    | '+' :: rest =>
      match digitsToNat rest with
      | some n => .ok (n : Int)
      | none => .error .valueError
    | cs =>
      match digitsToNat cs with
      | some n => .ok (n : Int)
      | none => .error .valueError
  | _ => .error .typeError

mutual

/-- Python `str(x)` of a JSON-decoded value. -/
def pyStr : JSON → String
  | .null => "None"
  | .bool b => if b then "True" else "False"
  | .num n => toString n
  | .str s => s
  | .arr xs => "[" ++ pyReprList xs ++ "]"
  | .obj fields => "\x7b" ++ pyReprFields fields ++ "\x7d"

/-- Python `repr(x)` of a JSON-decoded value (strings gain quotes). -/
def pyRepr : JSON → String
  | .str s => "\x27" ++ s ++ "\x27"
  | v => pyStrAux v

/-- Helper sharing the non-string cases of `str` with `repr`. -/
def pyStrAux : JSON → String
  | .null => "None"
  | .bool b => if b then "True" else "False"
  | .num n => toString n
  | .str s => s
  | .arr xs => "[" ++ pyReprList xs ++ "]"
  | .obj fields => "\x7b" ++ pyReprFields fields ++ "\x7d"

/-- Comma-joined `repr`s of list elements. -/
def pyReprList : List JSON → String
  | [] => ""
  | [x] => pyRepr x
  | x :: rest => pyRepr x ++ ", " ++ pyReprList rest

/-- Comma-joined `repr`s of dict items. -/
def pyReprFields : List (String × JSON) → String
  | [] => ""
  | [(k, v)] => "\x27" ++ k ++ "\x27: " ++ pyRepr v
  | (k, v) :: rest => "\x27" ++ k ++ "\x27: " ++ pyRepr v ++ ", " ++ pyReprFields rest

end

/-- Python iteration over a JSON-decoded value: lists yield their elements,
strings their characters, dicts their keys; other values are not iterable. -/
def pyIter (v : JSON) : Except PyError (List JSON) :=
  match v with
  | .arr xs => .ok xs
  | .str s => .ok (s.toList.map fun c => .str (String.singleton c))
  | .obj fields => .ok (fields.map fun kv => .str kv.1)
  | _ => .error .typeError

/-- A naive timestamp value as produced by `datetime.fromisoformat`:
calendar fields plus an optional fixed UTC offset in minutes. -/
structure PyDateTime where
  year : Nat
  month : Nat
  day : Nat
  hour : Nat
  minute : Nat
  second : Nat
  microsecond : Nat
  tzoffset : Option Int
deriving Repr, DecidableEq

/-- Number of days in a month of a given year (proleptic Gregorian,
with the usual leap-year rule). -/
def daysInMonth (y m : Nat) : Nat :=
  if m = 2 then
    if y % 4 = 0 ∧ (y % 100 ≠ 0 ∨ y % 400 = 0) then 29 else 28
  else if m = 4 ∨ m = 6 ∨ m = 9 ∨ m = 11 then 30
  else 31

/-- Parse exactly `n` leading decimal digits, returning the value and the
remaining characters. -/
def takeDigits (n : Nat) (cs : List Char) : Option (Nat × List Char) :=
  match digitsToNat (cs.take n) with
  | some v => if (cs.take n).length = n then some (v, cs.drop n) else none
  | none => none

/-- Parse the `HH:MM[:SS]` part of a UTC offset, as offset minutes. -/
def parseOffsetHMS (cs : List Char) : Option Nat :=
  match takeDigits 2 cs with
  | none => none
  | some (hh, rest) =>
    match rest with
    | ':' :: rest2 =>
      match takeDigits 2 rest2 with
      | none => none
      | some (mm, rest3) =>
        if hh ≤ 23 ∧ mm ≤ 59 then
          match rest3 with
          | [] => some (hh * 60 + mm)
          | ':' :: rest4 =>
            match takeDigits 2 rest4 with
            | some (ss, []) => if ss ≤ 59 then some (hh * 60 + mm) else none
            | _ => none
          | _ => none
        else none
    | _ => none

/-- Parse the timezone suffix of an ISO timestamp: empty, `Z`, or a
signed `HH:MM[:SS]` offset. -/
def parseTZ (cs : List Char) : Option (Option Int) :=
  match cs with
  | [] => some none
  | ['Z'] => some (some 0)
  | ['z'] => some (some 0)
  | '+' :: rest => (parseOffsetHMS rest).map fun m => some (m : Int)
  | '-' :: rest => (parseOffsetHMS rest).map fun m => some (-(m : Int))
  | _ => none

/-- Parse fractional seconds: 1 to 6 digits, scaled to microseconds.
Returns the microsecond value and the remaining characters. -/
def parseFraction (cs : List Char) : Option (Nat × List Char) :=
  let digits := cs.takeWhile Char.isDigit
  let rest := cs.dropWhile Char.isDigit
  if 1 ≤ digits.length ∧ digits.length ≤ 6 then
    match digitsToNat digits with
    | some v => some (v * 10 ^ (6 - digits.length), rest)
    | none => none
  else none

/-- Parse the time-of-day part `HH[:MM[:SS[.ffffff]]]` followed by an
optional timezone suffix. -/
def parseTimePart (cs : List Char) : Option (Nat × Nat × Nat × Nat × Option Int) :=
  match takeDigits 2 cs with
  | none => none
  | some (hh, rest) =>
    if hh ≥ 24 then none else
    match rest with
    | ':' :: rest2 =>
      match takeDigits 2 rest2 with
      | none => none
      | some (mi, rest3) =>
        if mi ≥ 60 then none else
        match rest3 with
        | ':' :: rest4 =>
          match takeDigits 2 rest4 with
          | none => none
          | some (ss, rest5) =>
            if ss ≥ 60 then none else
            match rest5 with
            | '.' :: rest6 =>
              match parseFraction rest6 with
              | none => none
              | some (us, rest7) =>
                (parseTZ rest7).map fun tz => (hh, mi, ss, us, tz)
            | _ => (parseTZ rest5).map fun tz => (hh, mi, ss, 0, tz)
        | _ => (parseTZ rest3).map fun tz => (hh, mi, 0, 0, tz)
    | _ => (parseTZ rest).map fun tz => (hh, 0, 0, 0, tz)

/-- Model of `datetime.fromisoformat` on a string: a `YYYY-MM-DD` calendar
date (validated), optionally followed by a one-character separator and a
time of day with optional fractional seconds and UTC offset. Returns `none`
exactly when Python raises `ValueError`. -/
def fromisoformat (s : String) : Option PyDateTime :=
  let cs := s.toList
  match takeDigits 4 cs with
  | none => none
  | some (y, rest) =>
    match rest with
    | '-' :: rest2 =>
      match takeDigits 2 rest2 with
      | none => none
      | some (mo, rest3) =>
        match rest3 with
        | '-' :: rest4 =>
          match takeDigits 2 rest4 with
          | none => none
          | some (d, rest5) =>
            if 1 ≤ y ∧ 1 ≤ mo ∧ mo ≤ 12 ∧ 1 ≤ d ∧ d ≤ daysInMonth y mo then
              match rest5 with
              | [] => some ⟨y, mo, d, 0, 0, 0, 0, none⟩
              | _ :: timecs =>
                match parseTimePart timecs with
                | some (hh, mi, ss, us, tz) => some ⟨y, mo, d, hh, mi, ss, us, tz⟩
                | none => none
            else none
        | _ => none
    | _ => none

/-- Model of `datetime.fromisoformat(x)` as called on a JSON field: a `TypeError`
on non-strings, a `ValueError` on malformed strings. -/
def pyFromisoformat (v : JSON) : Except PyError PyDateTime :=
  match v with
  | .str s =>
    match fromisoformat s with
    | some d => .ok d
    | none => .error .valueError
  | _ => .error .typeError

/-- Modelled from the spec: `PartialUser` (`src/pixiv/user.py`, not under
`src/`) is "constructed from a raw identifier and name pair (both required,
no validation)", storing the provider-supplied values as given. -/
structure PartialUser where
  id : JSON
  name : JSON
deriving Repr, BEq

/-- Modelled from the spec: the profile link is "built deterministically
from `id`" as a provider-specific template keyed by the user id. -/
def PartialUser.url (u : PartialUser) : String :=
  "https://www.pixiv.net/en/users/" ++ pyStr u.id

/-- Modelled from the spec: `PixivArtworkTag` (`src/pixiv/tags.py`, not
under `src/`) is "constructed from a provider sub-document containing at
least a `tag` field and optionally a `translated_name` field. No validation
beyond presence of `tag`." -/
structure PixivArtworkTag where
  name : JSON
  translated_name : Option JSON
deriving Repr, BEq

/-- Modelled from the spec: tag construction requires the `tag` field
(missing-field errors propagate to the caller) and reads the optional
`translated_name` field. -/
def PixivArtworkTag.init (data : JSON) : Except PyError PixivArtworkTag := do
  let name ← pyItem data "tag"
  let translated :=
    match data with
    | .obj fields => JSON.lookup fields "translated_name"
    | _ => none
  pure ⟨name, translated⟩

/-- Modelled from the spec: display rule "render `translated_name` if
present, else fall back to `name`" (Python `str(tag)`). -/
def PixivArtworkTag.display (t : PixivArtworkTag) : String :=
  match t.translated_name with
  | some v => pyStr v
  | none => pyStr t.name

/-- Modelled from the spec: the tag navigation link is "built
deterministically from `name`" as a provider-specific template keyed by
the tag name. -/
def PixivArtworkTag.url (t : PixivArtworkTag) : String :=
  "https://www.pixiv.net/en/tags/" ++ pyStr t.name ++ "/artworks"

/-- The two shapes `PixivArtwork.tags` can take (`artwork.py` lines 53-57):
a list of parsed `PixivArtworkTag` values when the provider document's
`tags` field is a dict, or the raw field value stored unchanged otherwise. -/
inductive TagsField where
  | parsed : List PixivArtworkTag → TagsField
  | raw : JSON → TagsField
deriving Repr, BEq

/-- The normalized artwork representation (`PixivArtwork` in
`src/pixiv/artwork.py`). Fields that the Python constructor stores without
conversion keep the raw JSON value. -/
structure PixivArtwork where
  id : Int
  title : JSON
  author : PartialUser
  nsfw : Bool
  created_at : PyDateTime
  tags : TagsField
  width : JSON
  height : JSON
  pages_count : JSON
  image_urls : JSON
deriving Repr, BEq

/-- The polymorphic handling of the `tags` field (`artwork.py` lines
53-57): a dict has its nested `tags` list iterated and each element parsed
as a `PixivArtworkTag`; any other value is stored unchanged. -/
def parseTags (tagsRaw : JSON) : Except PyError TagsField :=
  match tagsRaw with
  | .obj fields => do
    let inner ← pyItem (.obj fields) "tags"
    let elems ← pyIter inner
    let ts ← elems.mapM PixivArtworkTag.init
    pure (TagsField.parsed ts)
  | v => pure (TagsField.raw v)

/-- The constructor `PixivArtwork.__init__` (`artwork.py` lines 46-62), with field accesses
in source order: `id` (via `int()`), `title`, `userId`/`userName`,
`xRestrict` (via `bool()`), `createDate` (via `fromisoformat`), the
polymorphic `tags` field, then `width`, `height`, `pageCount`, `urls`. -/
def PixivArtwork.init (data : JSON) : Except PyError PixivArtwork := do
  let idRaw ← pyItem data "id"
  let idVal ← pyInt idRaw
  let title ← pyItem data "title"
  let userId ← pyItem data "userId"
  let userName ← pyItem data "userName"
  let author : PartialUser := ⟨userId, userName⟩
  let xRestrict ← pyItem data "xRestrict"
  let nsfw := xRestrict.truthy
  let createDate ← pyItem data "createDate"
  let created_at ← pyFromisoformat createDate
  let tagsRaw ← pyItem data "tags"
  let tags ← parseTags tagsRaw
  let width ← pyItem data "width"
  let height ← pyItem data "height"
  let pages_count ← pyItem data "pageCount"
  let image_urls ← pyItem data "urls"
  pure ⟨idVal, title, author, nsfw, created_at, tags, width, height, pages_count, image_urls⟩

/-- The property `PixivArtwork.url` (`artwork.py` lines 64-66): the canonical artwork
link built from the id. -/
def PixivArtwork.url (a : PixivArtwork) : String :=
  "https://www.pixiv.net/en/artworks/" ++ toString a.id

/-- Console side effects performed by the embedded code. -/
inductive Effect where
  | print : String → Effect
  | input : String → Effect
deriving Repr, DecidableEq

/-- The method `PixivArtwork.get_image_url` (`artwork.py` lines 68-74): look up the
`"regular"` key of `image_urls`; return the value if it is not `None`,
otherwise print a notice and return the string the operator types at the
`input` prompt (`operator`). The effect trace records the console I/O
performed. -/
def PixivArtwork.get_image_url (a : PixivArtwork) (operator : String) :
    List Effect × Except PyError JSON :=
  match pyItem a.image_urls "regular" with
  | .error e => ([], .error e)
  | .ok .null =>
    ([.print ("Cannot fetch image URL for artwork " ++ toString a.id ++
        ", please enter it manually."),
      .input "image URL>"],
     .ok (.str operator))
  | .ok url => ([], .ok url)

/-- Model of `discord.utils.escape_markdown` (third-party library): each
markdown special character is preceded by a backslash. Raises `TypeError`
when applied to a non-string (modelled at the call site). -/
def escape_markdown (s : String) : String :=
  String.join (s.toList.map fun c =>
    if ("\\*_~|`").contains c then "\\" ++ String.singleton c
    else String.singleton c)

/-- One field of a rendered message payload (`discord.Embed.add_field`):
`discord.py` stringifies both name and value. -/
structure EmbedField where
  name : String
  value : String
  inl : Bool
deriving Repr, DecidableEq

/-- The rendered message payload (`discord.Embed`): header attributes set
at construction, an image placeholder, and the ordered field list. -/
structure Embed where
  title : JSON
  url : String
  color : Nat
  timestamp : PyDateTime
  image : Option String
  fields : List EmbedField
deriving Repr, BEq

/-- The `.url` attribute access on an element of a plain (non-`Tag`) tag
list: JSON scalars and containers have no such attribute, so Python raises
`AttributeError`. -/
def pyAttrUrl (_v : JSON) : Except PyError String :=
  .error .attributeError

/-- The joined `", "`-separated tags string of `create_embed`
(`artwork.py` line 89), built from whatever `self.tags` holds: parsed
`PixivArtworkTag` values render as `[display](link)`; elements of a raw
(non-dict) tags value have no `.url` attribute, so rendering them raises. -/
def tagsJoined (tags : TagsField) : Except PyError String :=
  match tags with
  | .parsed ts =>
    .ok (String.intercalate ", "
      (ts.map fun t => "[" ++ t.display ++ "](" ++ t.url ++ ")"))
  | .raw v => do
    let elems ← pyIter v
    let parts ← elems.mapM (fun e => do
      let u ← pyAttrUrl e
      pure ("[" ++ pyStr e ++ "](" ++ u ++ ")"))
    pure (String.intercalate ", " parts)

/-- Truthiness of `self.tags` (`if self.tags:` on line 86): list
truthiness for the parsed form, Python truthiness of the raw value. -/
def TagsField.truthy : TagsField → Bool
  | .parsed ts => !ts.isEmpty
  | .raw v => v.truthy

/-- The method `PixivArtwork.create_embed` (`artwork.py` lines 76-115): header with
title, canonical url, fixed color `0x2ECC71` and creation timestamp; the
attachment image placeholder; a `Tags` field only when `self.tags` is
truthy; then the `Artwork ID`, `Author`, `Size`, `Pages count` and
`Artwork link` fields, in source order. -/
def PixivArtwork.create_embed (a : PixivArtwork)
    (attachment_name : String) : Except PyError Embed := do
  let tagFields ←
    if a.tags.truthy then do
      let joined ← tagsJoined a.tags
      pure [EmbedField.mk "Tags" joined false]
    else
      pure []
  let authorName ←
    match a.author.name with
    | .str s => pure s
    | _ => .error .typeError
  pure
    { title := a.title
      url := a.url
      color := 0x2ECC71
      timestamp := a.created_at
      image := some ("attachment://" ++ attachment_name)
      fields := tagFields ++
        [EmbedField.mk "Artwork ID" (toString a.id) true,
         EmbedField.mk "Author"
           ("[" ++ escape_markdown authorName ++ "](" ++ a.author.url ++ ")") true,
         EmbedField.mk "Size" (pyStr a.width ++ " x " ++ pyStr a.height) true,
         EmbedField.mk "Pages count" (pyStr a.pages_count) true,
         EmbedField.mk "Artwork link" a.url false] }

/-- The method `create_embed` translated a second time, in an effect-and-state-passing
form: alongside the result it reports the console effects performed (the
method body contains no `print`/`input` statement, so each step contributes
an empty trace) and the artwork value after the call (the method assigns to
no attribute of `self`, so each step passes `a` through unchanged). -/
def PixivArtwork.create_embed_run (a : PixivArtwork)
    (attachment_name : String) :
    List Effect × Except PyError Embed × PixivArtwork :=
  let headerTrace : List Effect := []
  match
    (if a.tags.truthy then
      (tagsJoined a.tags).map fun joined => [EmbedField.mk "Tags" joined false]
    else .ok []) with
  | .error e => (headerTrace, .error e, a)
  | .ok tagFields =>
    match a.author.name with
    | .str s =>
      (headerTrace,
       .ok
        { title := a.title
          url := a.url
          color := 0x2ECC71
          timestamp := a.created_at
          image := some ("attachment://" ++ attachment_name)
          fields := tagFields ++
            [EmbedField.mk "Artwork ID" (toString a.id) true,
             EmbedField.mk "Author"
               ("[" ++ escape_markdown s ++ "](" ++ a.author.url ++ ")") true,
             EmbedField.mk "Size" (pyStr a.width ++ " x " ++ pyStr a.height) true,
             EmbedField.mk "Pages count" (pyStr a.pages_count) true,
             EmbedField.mk "Artwork link" a.url false] },
       a)
    | _ => (headerTrace, .error .typeError, a)

/-- Outcome of the HTTP GET issued by `PixivArtwork.get` as seen by the
caller: either an `aiohttp.ClientError`/`asyncio.TimeoutError` raised in
the request block, or a response with a status code and a JSON body. -/
inductive Transport where
  | clientError : Transport
  | response : Nat → JSON → Transport
deriving Repr, BEq

/-- The classmethod `PixivArtwork.get` (`artwork.py` lines 120-147): client errors are
suppressed into `None`; a non-200 status returns `None`; a truthy `error`
flag returns `None`; otherwise the artwork is constructed from the `body`
sub-document. `KeyError`/`ValueError` raised while reading the body are not
in the `contextlib.suppress` list and propagate. -/
def PixivArtwork.get (resp : Transport) : Except PyError (Option PixivArtwork) :=
  match resp with
  | .clientError => .ok none
  | .response status body =>
    if status ≠ 200 then .ok none
    else do
      let errFlag ← pyItem body "error"
      if errFlag.truthy then
        pure none
      else do
        let doc ← pyItem body "body"
        let a ← PixivArtwork.init doc
        pure (some a)

/-! Concrete sample values used to instantiate the theorems below. -/

/-- The timestamp `2023-01-01T00:00:00`. -/
def sampleDT : PyDateTime := ⟨2023, 1, 1, 0, 0, 0, 0, none⟩

/-- A sample artwork with the given tags and image-URL mapping. -/
def sampleArtwork (tags : TagsField) (urls : JSON) : PixivArtwork :=
  ⟨123, .str "Sunset", ⟨.num 5, .str "Ann"⟩, false, sampleDT, tags,
   .num 800, .num 600, .num 1, urls⟩

/-- The worked example document of the specification (§8). -/
def exampleDoc : JSON := .obj [
  ("id", .str "123"), ("title", .str "Sunset"), ("userId", .num 5),
  ("userName", .str "Ann"), ("xRestrict", .num 0),
  ("createDate", .str "2023-01-01T00:00:00"),
  ("tags", .arr [.str "calm", .str "sky"]),
  ("width", .num 800), ("height", .num 600), ("pageCount", .num 1),
  ("urls", .obj [("regular", .str "http://x/img.png")])]

/-- The artwork the example document constructs. -/
def exampleArtwork : PixivArtwork :=
  sampleArtwork (.raw (.arr [.str "calm", .str "sky"]))
    (.obj [("regular", .str "http://x/img.png")])

/-- The example document with a nested-object `tags` field instead of a
flat string list. -/
def nestedTagsDoc : JSON := .obj [
  ("id", .str "123"), ("title", .str "Sunset"), ("userId", .num 5),
  ("userName", .str "Ann"), ("xRestrict", .num 0),
  ("createDate", .str "2023-01-01T00:00:00"),
  ("tags", .obj [("tags", .arr [
      .obj [("tag", .str "calm"), ("translated_name", .str "Calm")],
      .obj [("tag", .str "sky")]])]),
  ("width", .num 800), ("height", .num 600), ("pageCount", .num 1),
  ("urls", .obj [("regular", .str "http://x/img.png")])]

/-- The two tags of `nestedTagsDoc` after parsing. -/
def nestedTags : List PixivArtworkTag :=
  [⟨.str "calm", some (.str "Calm")⟩, ⟨.str "sky", none⟩]

/-- A provider document whose required fields are supplied as typed
parameters, in the field order the constructor reads them. -/
def mkDoc (idv : Int) (t : String) (uid : Int) (un : String) (xr : Int)
    (cd : String) (tagStrs : List String) (w hgt pc : Int)
    (urls : List (String × JSON)) : JSON :=
  .obj [("id", .num idv), ("title", .str t), ("userId", .num uid),
        ("userName", .str un), ("xRestrict", .num xr),
        ("createDate", .str cd), ("tags", .arr (tagStrs.map JSON.str)),
        ("width", .num w), ("height", .num hgt), ("pageCount", .num pc),
        ("urls", .obj urls)]

/-- The artwork `mkDoc` constructs once `createDate` parses to `dt`. -/
def mkDocArtwork (idv : Int) (t : String) (uid : Int) (un : String)
    (xr : Int) (dt : PyDateTime) (tagStrs : List String) (w hgt pc : Int)
    (urls : List (String × JSON)) : PixivArtwork :=
  ⟨idv, .str t, ⟨.num uid, .str un⟩, xr != 0, dt,
   .raw (.arr (tagStrs.map JSON.str)), .num w, .num hgt, .num pc, .obj urls⟩

/-- Remove one key from a JSON object (other values unchanged). -/
def eraseKey (data : JSON) (key : String) : JSON :=
  match data with
  | .obj fields => .obj (fields.filter fun kv => kv.1 != key)
  | v => v

/-- The required fields of a provider document, in the order the
constructor reads them. -/
def requiredFields : List String :=
  ["id", "title", "userId", "userName", "xRestrict", "createDate",
   "tags", "width", "height", "pageCount", "urls"]

/-! Helper lemmas about the `Except` monad used by the embedded code. -/

/-- Binding a successful `Except` computation applies the continuation. -/
@[simp] theorem bind_ok_eq {α β : Type} (v : α)
    (f : α → Except PyError β) :
    (Except.ok v : Except PyError α) >>= f = f v := rfl

/-- Binding a failed `Except` computation propagates the failure. -/
@[simp] theorem bind_error_eq {α β : Type} (e : PyError)
    (f : α → Except PyError β) :
    (Except.error e : Except PyError α) >>= f = .error e := rfl

/-- Inversion of a successful `PixivArtwork.init`: every field access of
the constructor succeeded and produced the corresponding attribute. -/
theorem init_ok_elim {data : JSON} {a : PixivArtwork}
    (h : PixivArtwork.init data = .ok a) :
    ∃ idRaw xr cd tagsRaw,
      pyItem data "id" = .ok idRaw ∧ pyInt idRaw = .ok a.id ∧
      pyItem data "title" = .ok a.title ∧
      pyItem data "userId" = .ok a.author.id ∧
      pyItem data "userName" = .ok a.author.name ∧
      pyItem data "xRestrict" = .ok xr ∧ a.nsfw = xr.truthy ∧
      pyItem data "createDate" = .ok cd ∧
      pyFromisoformat cd = .ok a.created_at ∧
      pyItem data "tags" = .ok tagsRaw ∧ parseTags tagsRaw = .ok a.tags ∧
      pyItem data "width" = .ok a.width ∧
      pyItem data "height" = .ok a.height ∧
      pyItem data "pageCount" = .ok a.pages_count ∧
      pyItem data "urls" = .ok a.image_urls := by
  rw [PixivArtwork.init] at h
  cases h1 : pyItem data "id" with
  | error e => rw [h1] at h; simp at h
  | ok idRaw =>
  rw [h1] at h; rw [bind_ok_eq] at h
  cases h2 : pyInt idRaw with
  | error e => rw [h2] at h; simp at h
  | ok idVal =>
  rw [h2] at h; rw [bind_ok_eq] at h
  cases h3 : pyItem data "title" with
  | error e => rw [h3] at h; simp at h
  | ok title =>
  rw [h3] at h; rw [bind_ok_eq] at h
  cases h4 : pyItem data "userId" with
  | error e => rw [h4] at h; simp at h
  | ok userId =>
  rw [h4] at h; rw [bind_ok_eq] at h
  cases h5 : pyItem data "userName" with
  | error e => rw [h5] at h; simp at h
  | ok userName =>
  rw [h5] at h; rw [bind_ok_eq] at h
  cases h6 : pyItem data "xRestrict" with
  | error e => rw [h6] at h; simp at h
  | ok xRestrict =>
  rw [h6] at h; rw [bind_ok_eq] at h
  cases h7 : pyItem data "createDate" with
  | error e => rw [h7] at h; simp at h
  | ok createDate =>
  rw [h7] at h; rw [bind_ok_eq] at h
  cases h8 : pyFromisoformat createDate with
  | error e => rw [h8] at h; simp at h
  | ok created_at =>
  rw [h8] at h; rw [bind_ok_eq] at h
  cases h9 : pyItem data "tags" with
  | error e => rw [h9] at h; simp at h
  | ok tagsRaw =>
  rw [h9] at h; rw [bind_ok_eq] at h
  cases h10 : parseTags tagsRaw with
  | error e => rw [h10] at h; simp at h
  | ok tags =>
  rw [h10] at h; rw [bind_ok_eq] at h
  cases h11 : pyItem data "width" with
  | error e => rw [h11] at h; simp at h
  | ok width =>
  rw [h11] at h; rw [bind_ok_eq] at h
  cases h12 : pyItem data "height" with
  | error e => rw [h12] at h; simp at h
  | ok height =>
  rw [h12] at h; rw [bind_ok_eq] at h
  cases h13 : pyItem data "pageCount" with
  | error e => rw [h13] at h; simp at h
  | ok pages_count =>
  rw [h13] at h; rw [bind_ok_eq] at h
  cases h14 : pyItem data "urls" with
  | error e => rw [h14] at h; simp at h
  | ok image_urls =>
  rw [h14] at h; rw [bind_ok_eq] at h
  have ha : a = ⟨idVal, title, ⟨userId, userName⟩, xRestrict.truthy,
      created_at, tags, width, height, pages_count, image_urls⟩ := by
    cases h; rfl
  subst ha
  exact ⟨idRaw, xRestrict, createDate, tagsRaw, rfl, h2, rfl, rfl, rfl,
    rfl, rfl, rfl, h8, rfl, h10, rfl, rfl, rfl, rfl⟩

/-- C1: when `image_urls` maps `"regular"` to a non-null string,
`get_image_url` returns that string verbatim with no console effect; when
it maps `"regular"` to null, `get_image_url` prints the notice, prompts,
and returns exactly the operator-supplied string. -/
theorem get_image_url_spec (a : PixivArtwork) (op s : String)
    (fields : List (String × JSON)) (hu : a.image_urls = .obj fields) :
    (JSON.lookup fields "regular" = some (.str s) →
      a.get_image_url op = ([], .ok (.str s))) ∧
    (JSON.lookup fields "regular" = some .null →
      a.get_image_url op =
        ([.print ("Cannot fetch image URL for artwork " ++ toString a.id ++
            ", please enter it manually."),
          .input "image URL>"],
         .ok (.str op))) := by
  constructor
  · intro hl
    rw [PixivArtwork.get_image_url, hu]
    simp [pyItem, hl]
  · intro hl
    rw [PixivArtwork.get_image_url, hu]
    simp [pyItem, hl]

/-- An artwork whose `"regular"` image URL is null. -/
def nullRegularArtwork : PixivArtwork :=
  sampleArtwork (.parsed []) (.obj [("regular", .null)])

/-- Witness for C1 at two concrete artworks: one with a non-null
`"regular"` URL, one with a null one. -/
theorem get_image_url_spec_witness :
    exampleArtwork.get_image_url "manual" = ([], .ok (.str "http://x/img.png")) ∧
    nullRegularArtwork.get_image_url "manual" =
      ([.print ("Cannot fetch image URL for artwork " ++
          toString nullRegularArtwork.id ++ ", please enter it manually."),
        .input "image URL>"],
       .ok (.str "manual")) :=
  ⟨(get_image_url_spec exampleArtwork "manual" "http://x/img.png" _ rfl).1 rfl,
   (get_image_url_spec nullRegularArtwork "manual" "" _ rfl).2 rfl⟩

/-- C10: when `image_urls` has no `"regular"` key at all, `get_image_url`
raises `KeyError` with no console effect and no fallback. -/
theorem get_image_url_missing_key (a : PixivArtwork) (op : String)
    (fields : List (String × JSON)) (hu : a.image_urls = .obj fields)
    (hl : JSON.lookup fields "regular" = none) :
    a.get_image_url op = ([], .error (.keyError "regular")) := by
  rw [PixivArtwork.get_image_url, hu]
  simp [pyItem, hl]

/-- An artwork whose `image_urls` mapping has no `"regular"` key. -/
def noRegularArtwork : PixivArtwork :=
  sampleArtwork (.parsed []) (.obj [("thumb", .str "http://x/t.png")])

/-- Witness for C10 at a concrete artwork. -/
theorem get_image_url_missing_key_witness :
    noRegularArtwork.get_image_url "manual" = ([], .error (.keyError "regular")) :=
  get_image_url_missing_key noRegularArtwork "manual" _ rfl rfl

/-- Evaluation of the fetcher on a 200 response, as a plain bind chain. -/
theorem get_200_eq (b : JSON) :
    PixivArtwork.get (.response 200 b) =
      (pyItem b "error" >>= fun errFlag =>
        if errFlag.truthy then pure none
        else pyItem b "body" >>= fun doc =>
          PixivArtwork.init doc >>= fun a => pure (some a)) := rfl

/-- C2: the fetcher returns the absence value (`None`) exactly when the
transport raised a client/timeout error, the HTTP status is not 200, or
the 200 response body's `error` flag is truthy. -/
theorem get_absence_iff (resp : Transport) :
    PixivArtwork.get resp = .ok none ↔
      (resp = .clientError ∨
        ∃ s b, resp = .response s b ∧
          (s ≠ 200 ∨ ∃ v, pyItem b "error" = .ok v ∧ v.truthy = true)) := by
  cases resp with
  | clientError => simp [PixivArtwork.get]
  | response s b =>
    by_cases hs : s = 200
    · subst hs
      rw [get_200_eq]
      constructor
      · intro h
        cases he : pyItem b "error" with
        | error e => rw [he, bind_error_eq] at h; exact Except.noConfusion h
        | ok v =>
          rw [he, bind_ok_eq] at h
          cases ht : v.truthy with
          | true => exact Or.inr ⟨200, b, rfl, Or.inr ⟨v, he, ht⟩⟩
          | false =>
            rw [ht] at h
            simp only [if_false, Bool.false_eq_true] at h
            cases hb : pyItem b "body" with
            | error e => rw [hb, bind_error_eq] at h; exact Except.noConfusion h
            | ok doc =>
              rw [hb, bind_ok_eq] at h
              cases hi : PixivArtwork.init doc with
              | error e => rw [hi, bind_error_eq] at h; exact Except.noConfusion h
              | ok a =>
                rw [hi, bind_ok_eq] at h
                simp only [pure, Except.pure, Except.ok.injEq] at h
                exact Option.noConfusion h
      · rintro (h | ⟨s', b', hsb, hcase⟩)
        · exact Transport.noConfusion h
        · injection hsb with hs' hb'
          subst hs'
          subst hb'
          rcases hcase with h200 | ⟨v, hv, ht⟩
          · exact absurd rfl h200
          · rw [hv, bind_ok_eq, ht]
            rfl
    · have hresp : PixivArtwork.get (.response s b) = .ok none := by
        rw [PixivArtwork.get]
        simp [hs]
      rw [hresp]
      simp only [true_iff]
      exact Or.inr ⟨s, b, rfl, Or.inl hs⟩

/-- C3: on a 200 response whose `error` flag is present and falsy, the
fetcher delegates to `PixivArtwork.init` on the `body` sub-document, and a
construction failure propagates as that same raised error, which is
distinct from the absence outcome. -/
theorem get_delegates_to_init (b doc v : JSON)
    (he : pyItem b "error" = .ok v) (hv : v.truthy = false)
    (hb : pyItem b "body" = .ok doc) :
    PixivArtwork.get (.response 200 b) = (PixivArtwork.init doc).map some ∧
    ∀ e, PixivArtwork.init doc = .error e →
      PixivArtwork.get (.response 200 b) = .error e ∧
        PixivArtwork.get (.response 200 b) ≠ .ok none := by
  have hchain : PixivArtwork.get (.response 200 b) =
      (PixivArtwork.init doc >>= fun a => pure (some a)) := by
    rw [get_200_eq, he, bind_ok_eq, hv]
    simp only [if_false, Bool.false_eq_true]
    rw [hb, bind_ok_eq]
  constructor
  · rw [hchain]
    cases hi : PixivArtwork.init doc with
    | error e => rfl
    | ok a => rfl
  · intro e hi
    rw [hchain, hi, bind_error_eq]
    exact ⟨rfl, fun h => Except.noConfusion h⟩

/-- A 200 response body whose `error` flag is falsy but whose `body`
sub-document lacks the required `title` field. -/
def malformedBody : JSON :=
  .obj [("error", .bool false), ("body", .obj [("id", .num 1)])]

/-- Witness for C3: at `malformedBody` the construction raises
`KeyError("title")`, which the fetcher propagates, and that outcome is
distinct from absence. -/
theorem get_delegates_to_init_witness :
    PixivArtwork.get (.response 200 malformedBody) = .error (.keyError "title") ∧
      PixivArtwork.get (.response 200 malformedBody) ≠ .ok none :=
  (get_delegates_to_init malformedBody (.obj [("id", .num 1)]) (.bool false)
    rfl rfl rfl).2 (.keyError "title") rfl

/-- C5: for every document accepted by the constructor, a dict-shaped
`tags` field has the elements of its nested `tags` list each parsed as a
`PixivArtworkTag` into the tag list, and any non-dict `tags` value is
stored unchanged as the tag list. -/
theorem init_tags_polymorphic (data : JSON) (a : PixivArtwork)
    (h : PixivArtwork.init data = .ok a) :
    (∀ fields xs, pyItem data "tags" = .ok (.obj fields) →
      JSON.lookup fields "tags" = some (.arr xs) →
      ∃ ts, xs.mapM PixivArtworkTag.init = .ok ts ∧ a.tags = .parsed ts) ∧
    (∀ v, pyItem data "tags" = .ok v → (∀ fields, v ≠ .obj fields) →
      a.tags = .raw v) := by
  obtain ⟨idRaw, xr, cd, tagsRaw, -, -, -, -, -, -, -, -, -, h9, h10, -, -, -, -⟩ :=
    init_ok_elim h
  constructor
  · intro fields xs hf hl
    rw [h9] at hf
    injection hf with hf
    subst hf
    rw [parseTags] at h10
    have hp : pyItem (.obj fields) "tags" = .ok (.arr xs) := by
      simp [pyItem, hl]
    rw [hp, bind_ok_eq] at h10
    have hi : pyIter (.arr xs) = .ok xs := rfl
    rw [hi, bind_ok_eq] at h10
    cases hm : xs.mapM PixivArtworkTag.init with
    | error e => rw [hm, bind_error_eq] at h10; exact Except.noConfusion h10
    | ok ts =>
      rw [hm, bind_ok_eq] at h10
      refine ⟨ts, rfl, ?_⟩
      simp only [pure, Except.pure, Except.ok.injEq] at h10
      exact h10.symm
  · intro v hv hne
    rw [h9] at hv
    injection hv with hv
    subst hv
    cases tagsRaw with
    | null => injection h10 with h10; exact h10.symm
    | bool b => injection h10 with h10; exact h10.symm
    | num n => injection h10 with h10; exact h10.symm
    | str s => injection h10 with h10; exact h10.symm
    | arr xs => injection h10 with h10; exact h10.symm
    | obj fields => exact absurd rfl (hne fields)

/-- The artwork `nestedTagsDoc` constructs. -/
def nestedArtwork : PixivArtwork :=
  sampleArtwork (.parsed nestedTags) (.obj [("regular", .str "http://x/img.png")])

/-- Witness for C5 at two concrete documents: the nested-object `tags`
form and the flat string-list form. -/
theorem init_tags_polymorphic_witness :
    (∃ ts, ([.obj [("tag", .str "calm"), ("translated_name", .str "Calm")],
             .obj [("tag", .str "sky")]] : List JSON).mapM
        PixivArtworkTag.init = .ok ts ∧ nestedArtwork.tags = .parsed ts) ∧
    exampleArtwork.tags = .raw (.arr [.str "calm", .str "sky"]) :=
  ⟨(init_tags_polymorphic nestedTagsDoc nestedArtwork rfl).1
      [("tags", .arr [.obj [("tag", .str "calm"), ("translated_name", .str "Calm")],
        .obj [("tag", .str "sky")]])]
      [.obj [("tag", .str "calm"), ("translated_name", .str "Calm")],
       .obj [("tag", .str "sky")]] rfl rfl,
   (init_tags_polymorphic exampleDoc exampleArtwork rfl).2
      (.arr [.str "calm", .str "sky"]) rfl
      (fun _ hcontra => JSON.noConfusion hcontra)⟩

/-- C6: on a document carrying every required field (with a flat string
tag list), construction fails with `ValueError` when `createDate` does not
parse as an ISO-8601 timestamp; when it does parse, construction succeeds
with the fully populated artwork, and removing any one required field
makes construction fail with `KeyError` for that field. -/
theorem init_validation (idv : Int) (t : String) (uid : Int) (un : String)
    (xr : Int) (cd : String) (tagStrs : List String) (w hgt pc : Int)
    (urls : List (String × JSON)) :
    (fromisoformat cd = none →
      PixivArtwork.init (mkDoc idv t uid un xr cd tagStrs w hgt pc urls) =
        .error .valueError) ∧
    (∀ dt, fromisoformat cd = some dt →
      PixivArtwork.init (mkDoc idv t uid un xr cd tagStrs w hgt pc urls) =
        .ok (mkDocArtwork idv t uid un xr dt tagStrs w hgt pc urls) ∧
      ∀ k, k ∈ requiredFields →
        PixivArtwork.init
            (eraseKey (mkDoc idv t uid un xr cd tagStrs w hgt pc urls) k) =
          .error (.keyError k)) := by
  have key : PixivArtwork.init (mkDoc idv t uid un xr cd tagStrs w hgt pc urls) =
      (pyFromisoformat (.str cd) >>= fun dt =>
        .ok (mkDocArtwork idv t uid un xr dt tagStrs w hgt pc urls)) := rfl
  constructor
  · intro h
    have hfi : pyFromisoformat (.str cd) = .error .valueError := by
      simp [pyFromisoformat, h]
    rw [key, hfi, bind_error_eq]
  · intro dt hdt
    have hfi : pyFromisoformat (.str cd) = .ok dt := by
      simp [pyFromisoformat, hdt]
    constructor
    · rw [key, hfi, bind_ok_eq]
    · intro k hk
      simp only [requiredFields, List.mem_cons, List.not_mem_nil, or_false] at hk
      rcases hk with rfl | rfl | rfl | rfl | rfl | rfl | rfl | rfl | rfl | rfl | rfl
      · rfl
      · rfl
      · rfl
      · rfl
      · rfl
      · rfl
      · have keyK : PixivArtwork.init
            (eraseKey (mkDoc idv t uid un xr cd tagStrs w hgt pc urls) "tags") =
            (pyFromisoformat (.str cd) >>= fun _ =>
              (.error (.keyError "tags") : Except PyError PixivArtwork)) := rfl
        rw [keyK, hfi, bind_ok_eq]
      · have keyK : PixivArtwork.init
            (eraseKey (mkDoc idv t uid un xr cd tagStrs w hgt pc urls) "width") =
            (pyFromisoformat (.str cd) >>= fun _ =>
              (.error (.keyError "width") : Except PyError PixivArtwork)) := rfl
        rw [keyK, hfi, bind_ok_eq]
      · have keyK : PixivArtwork.init
            (eraseKey (mkDoc idv t uid un xr cd tagStrs w hgt pc urls) "height") =
            (pyFromisoformat (.str cd) >>= fun _ =>
              (.error (.keyError "height") : Except PyError PixivArtwork)) := rfl
        rw [keyK, hfi, bind_ok_eq]
      · have keyK : PixivArtwork.init
            (eraseKey (mkDoc idv t uid un xr cd tagStrs w hgt pc urls) "pageCount") =
            (pyFromisoformat (.str cd) >>= fun _ =>
              (.error (.keyError "pageCount") : Except PyError PixivArtwork)) := rfl
        rw [keyK, hfi, bind_ok_eq]
      · have keyK : PixivArtwork.init
            (eraseKey (mkDoc idv t uid un xr cd tagStrs w hgt pc urls) "urls") =
            (pyFromisoformat (.str cd) >>= fun _ =>
              (.error (.keyError "urls") : Except PyError PixivArtwork)) := rfl
        rw [keyK, hfi, bind_ok_eq]

/-- Witness for C6 at concrete documents: a malformed `createDate`, a
fully valid document, and the valid document with `title` removed. -/
theorem init_validation_witness :
    PixivArtwork.init (mkDoc 123 "Sunset" 5 "Ann" 0 "garbage" ["calm"]
        800 600 1 [("regular", .str "u")]) = .error .valueError ∧
    PixivArtwork.init (mkDoc 123 "Sunset" 5 "Ann" 0 "2023-01-01T00:00:00"
        ["calm"] 800 600 1 [("regular", .str "u")]) =
      .ok (mkDocArtwork 123 "Sunset" 5 "Ann" 0 sampleDT ["calm"] 800 600 1
        [("regular", .str "u")]) ∧
    PixivArtwork.init (eraseKey (mkDoc 123 "Sunset" 5 "Ann" 0
        "2023-01-01T00:00:00" ["calm"] 800 600 1 [("regular", .str "u")])
        "title") = .error (.keyError "title") :=
  ⟨(init_validation 123 "Sunset" 5 "Ann" 0 "garbage" ["calm"] 800 600 1
      [("regular", .str "u")]).1 rfl,
   ((init_validation 123 "Sunset" 5 "Ann" 0 "2023-01-01T00:00:00" ["calm"]
      800 600 1 [("regular", .str "u")]).2 sampleDT rfl).1,
   ((init_validation 123 "Sunset" 5 "Ann" 0 "2023-01-01T00:00:00" ["calm"]
      800 600 1 [("regular", .str "u")]).2 sampleDT rfl).2 "title"
      (by simp [requiredFields])⟩

/-- C7: the specification's worked example document constructs the
expected artwork, with `nsfw = false`, the flat tag list stored unchanged,
and the canonical artwork link instantiated with id 123. -/
theorem example_doc_construction :
    PixivArtwork.init exampleDoc = .ok exampleArtwork ∧
    exampleArtwork.nsfw = false ∧
    exampleArtwork.tags = .raw (.arr [.str "calm", .str "sky"]) ∧
    exampleArtwork.url = "https://www.pixiv.net/en/artworks/123" :=
  ⟨rfl, rfl, rfl, rfl⟩

/-- C8: for every document the constructor accepts whose `xRestrict` field
is a number, the artwork's `nsfw` flag is true exactly when that number is
nonzero. -/
theorem nsfw_iff_xRestrict (data : JSON) (a : PixivArtwork) (n : Int)
    (h : PixivArtwork.init data = .ok a)
    (hx : pyItem data "xRestrict" = .ok (.num n)) :
    a.nsfw = true ↔ n ≠ 0 := by
  obtain ⟨idRaw, xr, cd, tagsRaw, -, -, -, -, -, h6, h7, -, -, -, -, -, -, -, -⟩ :=
    init_ok_elim h
  rw [h6] at hx
  injection hx with hx
  subst hx
  rw [h7]
  simp [JSON.truthy, bne]

/-- Witness for C8: a document with `xRestrict = 1` constructs an artwork
whose `nsfw` flag is true. -/
theorem nsfw_iff_xRestrict_witness :
    (mkDocArtwork 123 "Sunset" 5 "Ann" 1 sampleDT ["calm"] 800 600 1
        [("regular", .str "u")]).nsfw = true :=
  (nsfw_iff_xRestrict
    (mkDoc 123 "Sunset" 5 "Ann" 1 "2023-01-01T00:00:00" ["calm"] 800 600 1
      [("regular", .str "u")])
    (mkDocArtwork 123 "Sunset" 5 "Ann" 1 sampleDT ["calm"] 800 600 1
      [("regular", .str "u")])
    1 rfl rfl).mpr (by decide)

/-- C4 (counterexample): on the spec's own example artwork — whose tag
list is the non-empty flat string list `["calm", "sky"]` — rendering
raises `AttributeError` (plain strings have no `.url` attribute), so no
payload with a tags field exists at all. -/
theorem create_embed_tags_counterexample :
    PixivArtwork.init exampleDoc = .ok exampleArtwork ∧
    exampleArtwork.tags.truthy = true ∧
    exampleArtwork.create_embed "image.png" = .error .attributeError ∧
    ¬ ∃ e, exampleArtwork.create_embed "image.png" = .ok e ∧
        "Tags" ∈ e.fields.map EmbedField.name := by
  refine ⟨rfl, rfl, rfl, ?_⟩
  rintro ⟨e, he, -⟩
  rw [show exampleArtwork.create_embed "image.png" =
      .error .attributeError from rfl] at he
  exact Except.noConfusion he

/-- C4 (amended): for every artwork whose tags were parsed from the
structured (dict) form, the payload contains a `Tags` field exactly when
the tag list is non-empty, and the fields appear in the fixed order
[title/image block, tags?, id, author, size, pages, link]; an artwork
holding a raw (plain string list) non-empty tags value makes rendering
raise instead of producing a payload. -/
theorem create_embed_fields_order (a : PixivArtwork) (n s : String)
    (ts : List PixivArtworkTag) :
    (a.tags = .parsed ts → a.author.name = .str s →
      ∃ e, a.create_embed n = .ok e ∧
        e.image = some ("attachment://" ++ n) ∧
        e.fields.map EmbedField.name =
          (if ts.isEmpty then [] else ["Tags"]) ++
          ["Artwork ID", "Author", "Size", "Pages count", "Artwork link"] ∧
        (("Tags" ∈ e.fields.map EmbedField.name) ↔ ts ≠ [])) ∧
    (∀ v, a.tags = .raw v → v.truthy = true →
      ∃ err, a.create_embed n = .error err) := by
  constructor
  · intro ht hn
    unfold PixivArtwork.create_embed
    rw [ht, hn]
    by_cases hts : ts.isEmpty
    · have hts' : ts = [] := by simpa using hts
      subst hts'
      refine ⟨_, rfl, rfl, ?_, ?_⟩
      · simp
      · simp
    · have hts' : ts ≠ [] := by simpa using hts
      simp only [TagsField.truthy, hts, Bool.not_false]
      rw [if_pos (by simp)]
      refine ⟨_, rfl, rfl, ?_, ?_⟩
      · simp [tagsJoined, pure, Except.pure, hts]
      · simp [tagsJoined, pure, Except.pure, hts']
  · intro v hv htr
    unfold PixivArtwork.create_embed
    rw [hv]
    have htr' : TagsField.truthy (.raw v) = true := by simpa [TagsField.truthy] using htr
    rw [htr', if_pos rfl]
    cases v with
    | null => simp [JSON.truthy] at htr
    | bool b =>
      cases b with
      | false => simp [JSON.truthy] at htr
      | true => exact ⟨.typeError, rfl⟩
    | num m =>
      have hm : m ≠ 0 := by simpa [JSON.truthy] using htr
      refine ⟨.typeError, ?_⟩
      rw [show tagsJoined (.raw (.num m)) = .error .typeError from rfl]
      rfl
    | str s' =>
      have hs : s' ≠ "" := by simpa [JSON.truthy] using htr
      obtain ⟨cs⟩ := s'
      cases cs with
      | nil => exact absurd rfl hs
      | cons c rest => exact ⟨.attributeError, rfl⟩
    | arr xs =>
      cases xs with
      | nil => simp [JSON.truthy] at htr
      | cons x rest => exact ⟨.attributeError, rfl⟩
    | obj fields =>
      cases fields with
      | nil => simp [JSON.truthy] at htr
      | cons kv rest => exact ⟨.attributeError, rfl⟩

/-- An artwork whose raw tags value is a number. -/
def rawNumArtwork : PixivArtwork :=
  sampleArtwork (.raw (.num 5)) (.obj [("regular", .str "u")])

/-- Witness for the amended C4 at two concrete artworks: parsed tags on
`nestedArtwork`, a truthy raw tags value on `rawNumArtwork`. -/
theorem create_embed_fields_order_witness :
    (∃ e, nestedArtwork.create_embed "image.png" = .ok e ∧
        e.image = some ("attachment://" ++ "image.png") ∧
        e.fields.map EmbedField.name =
          (if nestedTags.isEmpty then [] else ["Tags"]) ++
          ["Artwork ID", "Author", "Size", "Pages count", "Artwork link"] ∧
        (("Tags" ∈ e.fields.map EmbedField.name) ↔ nestedTags ≠ [])) ∧
    (∃ err, rawNumArtwork.create_embed "image.png" = .error err) :=
  ⟨(create_embed_fields_order nestedArtwork "image.png" "Ann" nestedTags).1
      rfl rfl,
   (create_embed_fields_order rawNumArtwork "image.png" "Ann" []).2
      (.num 5) rfl rfl⟩

/-- C9: rendering the message payload is a pure, deterministic
transformation: the effect-passing translation performs no console I/O,
leaves the artwork unchanged, and returns exactly the value of the pure
rendering function of the artwork and attachment name. -/
theorem create_embed_pure (a : PixivArtwork) (n : String) :
    a.create_embed_run n = ([], a.create_embed n, a) := by
  unfold PixivArtwork.create_embed_run PixivArtwork.create_embed
  cases ht : a.tags.truthy
  · cases hn : a.author.name <;> simp [Except.map, pure, Except.pure]
  · cases hj : tagsJoined a.tags
    · simp [Except.map]
    · cases hn : a.author.name <;> simp [Except.map, pure, Except.pure]
